import Mathlib

/-!
Verification of the OSINT satellite-imagery dashboard (src/streamlit_app.py).

The app is a linear request/response flow: read UI inputs, build a bounding
box around a chosen point, call the Sentinel Hub imagery provider, and render
the returned image or an error.  We shallowly embed the program: the external
libraries (streamlit, folium, sentinelhub) are opaque, so their observable
actions are recorded as an explicit effect trace, the provider is an abstract
function passed in as a parameter, and coordinates are rationals.
-/

/-- The three Sentinel data collections named in the source's
`satellite_mapping` dictionary (src/streamlit_app.py lines 132-136). -/
inductive DataCollection where
  | SENTINEL2_L1C
  | SENTINEL3_L1
  | LANDSAT8_L1
deriving DecidableEq

/-- Coordinate reference systems used by the app (only WGS84 appears). -/
inductive CRS where
  | WGS84
deriving DecidableEq

/-- Output encodings used by the app (only PNG appears). -/
inductive MimeType where
  | PNG
deriving DecidableEq

/-- A sentinelhub `BBox`: the raw coordinate list plus its CRS, as built by
`BBox(bbox_coords, crs=CRS.WGS84)` on line 58. -/
structure BBoxT where
  coords : List ℚ
  crs : CRS
deriving DecidableEq

/-- The observable content of the `SentinelHubRequest` constructed on lines
65-78: data collection, the single-day time interval, the requested output
responses, the bounding box and the pixel size. -/
structure SentinelRequest where
  data_collection : DataCollection
  input_data : List (String × String)
  responses : List (String × MimeType)
  bbox : BBoxT
  size : Nat × Nat
deriving DecidableEq

/-- Outcome of `request.get_data()` on the provider side: either an exception
(carrying its message) or a list of image payloads. -/
inductive ProviderOutcome where
  | raises (e : String)
  | ok (data : List (List Nat))
deriving DecidableEq

/-- One observable action of the program: log lines, streamlit UI output,
widget rendering, the map display, and calls to the imagery provider. -/
inductive Effect where
  | logError (msg : String)
  | logInfoFetching (date : String) (bbox : List ℚ)
  | logInfo (msg : String)
  | logException (msg : String)
  | logDebugBBox (bbox : List ℚ)
  | stError (msg : String)
  | stSuccess (msg : String)
  | stImage (img : List Nat) (caption : String)
  | stStop
  | widget (name : String)
  | mapDisplay (lat lon : ℚ) (zoom : Nat)
  | spinner (msg : String)
  | providerCall (req : SentinelRequest)
deriving DecidableEq

/-- The `SHConfig` credential record: `os.getenv` yields `None` when the
variable is absent, a (possibly empty) string otherwise (lines 25-28). -/
structure SHConfig where
  instance_id : Option String
  sh_client_id : Option String
  sh_client_secret : Option String

/-- Python truthiness of an `Optional[str]`: `None` and the empty string are
falsy, every other string is truthy. -/
def truthy : Option String → Bool
  | none => false
  | some s => !s.isEmpty

/-- `validate_sentinelhub_credentials` (lines 30-42): if any of the three
fields is falsy, it logs an error and raises
`ValueError("Missing Sentinel Hub API credentials.")`; otherwise it returns
normally.  We return the exception as `Except.error` plus the log trace. -/
def validate_sentinelhub_credentials (config : SHConfig) :
    Except String Unit × List Effect :=
  if !truthy config.instance_id || !truthy config.sh_client_id ||
      !truthy config.sh_client_secret then
    (Except.error "Missing Sentinel Hub API credentials.",
     [Effect.logError
        "Sentinel Hub API credentials are not properly set in the .env file."])
  else
    (Except.ok (), [])

/-- All three credential fields are truthy (non-empty, present). -/
def credsOk (config : SHConfig) : Bool :=
  truthy config.instance_id && truthy config.sh_client_id &&
    truthy config.sh_client_secret

/-- The fixed bounding-box offset constant `bbox_offset = 0.05` (line 150). -/
def bbox_offset : ℚ := 5 / 100

/-- The bounding box computed in `main` (lines 151-156):
`[lon - offset, lat - offset, lon + offset, lat + offset]`. -/
def bbox_coords (lat lon : ℚ) : List ℚ :=
  [lon - bbox_offset, lat - bbox_offset, lon + bbox_offset, lat + bbox_offset]

theorem validate_ok_of_credsOk (c : SHConfig) (h : credsOk c = true) :
    validate_sentinelhub_credentials c = (Except.ok (), []) := by
  unfold credsOk at h
  unfold validate_sentinelhub_credentials
  cases hi : truthy c.instance_id <;> cases hc : truthy c.sh_client_id <;>
    cases hs : truthy c.sh_client_secret <;> simp_all

theorem validate_error_of_not_credsOk (c : SHConfig) (h : credsOk c = false) :
    validate_sentinelhub_credentials c =
      (Except.error "Missing Sentinel Hub API credentials.",
       [Effect.logError
          "Sentinel Hub API credentials are not properly set in the .env file."]) := by
  unfold credsOk at h
  unfold validate_sentinelhub_credentials
  cases hi : truthy c.instance_id <;> cases hc : truthy c.sh_client_id <;>
    cases hs : truthy c.sh_client_secret <;> simp_all

/-- A calendar date as produced by `datetime.today().date()` and the
streamlit date picker. -/
structure PyDate where
  year : Nat
  month : Nat
  day : Nat
deriving DecidableEq

/-- Python's `<` on `datetime.date`: lexicographic on (year, month, day). -/
def PyDate.ltb (a b : PyDate) : Bool :=
  if a.year ≠ b.year then decide (a.year < b.year)
  else if a.month ≠ b.month then decide (a.month < b.month)
  else decide (a.day < b.day)

/-- Left-pad the decimal rendering of a number with zeros to a width. -/
def padNum (width n : Nat) : String :=
  let s := toString n
  if s.length < width then
    String.mk (List.replicate (width - s.length) '0') ++ s
  else s

/-- `date.isoformat()`, which is also `str(date)`: "YYYY-MM-DD". -/
def PyDate.isoformat (d : PyDate) : String :=
  padNum 4 d.year ++ "-" ++ padNum 2 d.month ++ "-" ++ padNum 2 d.day

/-- The `SentinelHubRequest` record built on lines 65-78 from the bounding
box coordinates, the ISO date string and the data collection: single-day
time interval `(date, date)`, one PNG output response named "default", CRS
WGS84, and pixel size computed by `bbox_to_dimensions` at resolution 10.
`btd` abstracts the external `bbox_to_dimensions` library function. -/
def mkRequest (btd : BBoxT → Nat → Nat × Nat) (bbox_coords : List ℚ)
    (date : String) (data_collection : DataCollection) : SentinelRequest :=
  { data_collection := data_collection
    input_data := [(date, date)]
    responses := [("default", MimeType.PNG)]
    bbox := { coords := bbox_coords, crs := CRS.WGS84 }
    size := btd { coords := bbox_coords, crs := CRS.WGS84 } 10 }

/-- `get_sentinel_image` (lines 44-88).  The whole body sits inside a
`try/except Exception` block, so every raise — the provider call raising, or
`response[0]` failing with IndexError on an empty response list — is caught:
the handler logs the exception, shows a streamlit error and returns `None`.
`btd` abstracts the external `bbox_to_dimensions`; `provider` abstracts
`request.get_data()`.  Returns the Python return value paired with the
effect trace. -/
def get_sentinel_image (btd : BBoxT → Nat → Nat × Nat)
    (provider : SentinelRequest → ProviderOutcome) (bbox_coords : List ℚ)
    (date : String) (data_collection : DataCollection) :
    Option (List Nat) × List Effect :=
  let request := mkRequest btd bbox_coords date data_collection
  let pre := [Effect.logInfoFetching date bbox_coords,
              Effect.providerCall request]
  match provider request with
  | ProviderOutcome.raises e =>
      (none,
       pre ++ [Effect.logException
                 "An error occurred while fetching the satellite image.",
               Effect.stError ("Error fetching image: " ++ e)])
  | ProviderOutcome.ok [] =>
      (none,
       pre ++ [Effect.logException
                 "An error occurred while fetching the satellite image.",
               Effect.stError
                 ("Error fetching image: " ++ "list index out of range")])
  | ProviderOutcome.ok (img :: _) =>
      (some img, pre ++ [Effect.logInfo "Satellite image fetched successfully."])

/-- Closed form of `get_sentinel_image` when the provider raises. -/
theorem gsi_raises (btd : BBoxT → Nat → Nat × Nat)
    (provider : SentinelRequest → ProviderOutcome) (bbox_coords : List ℚ)
    (date : String) (dc : DataCollection) (e : String)
    (h : provider (mkRequest btd bbox_coords date dc) =
      ProviderOutcome.raises e) :
    get_sentinel_image btd provider bbox_coords date dc =
      (none,
       [Effect.logInfoFetching date bbox_coords,
        Effect.providerCall (mkRequest btd bbox_coords date dc),
        Effect.logException
          "An error occurred while fetching the satellite image.",
        Effect.stError ("Error fetching image: " ++ e)]) := by
  simp only [get_sentinel_image, h, List.cons_append, List.nil_append]

/-- Closed form of `get_sentinel_image` when the provider returns an empty
response list (so `response[0]` raises IndexError, caught by the handler). -/
theorem gsi_empty (btd : BBoxT → Nat → Nat × Nat)
    (provider : SentinelRequest → ProviderOutcome) (bbox_coords : List ℚ)
    (date : String) (dc : DataCollection)
    (h : provider (mkRequest btd bbox_coords date dc) =
      ProviderOutcome.ok []) :
    get_sentinel_image btd provider bbox_coords date dc =
      (none,
       [Effect.logInfoFetching date bbox_coords,
        Effect.providerCall (mkRequest btd bbox_coords date dc),
        Effect.logException
          "An error occurred while fetching the satellite image.",
        Effect.stError ("Error fetching image: " ++ "list index out of range")]) := by
  simp only [get_sentinel_image, h, List.cons_append, List.nil_append]

/-- Closed form of `get_sentinel_image` when the provider returns at least
one image payload. -/
theorem gsi_ok (btd : BBoxT → Nat → Nat × Nat)
    (provider : SentinelRequest → ProviderOutcome) (bbox_coords : List ℚ)
    (date : String) (dc : DataCollection) (img : List Nat) (rest : List (List Nat))
    (h : provider (mkRequest btd bbox_coords date dc) =
      ProviderOutcome.ok (img :: rest)) :
    get_sentinel_image btd provider bbox_coords date dc =
      (some img,
       [Effect.logInfoFetching date bbox_coords,
        Effect.providerCall (mkRequest btd bbox_coords date dc),
        Effect.logInfo "Satellite image fetched successfully."]) := by
  simp only [get_sentinel_image, h, List.cons_append, List.nil_append]

/-- Is this effect a call to the imagery provider? -/
def isProviderCall : Effect → Bool
  | Effect.providerCall _ => true
  | _ => false

/-- The provider requests recorded in a trace, in order. -/
def requestsMade (trace : List Effect) : List SentinelRequest :=
  trace.filterMap fun e =>
    match e with
    | Effect.providerCall r => some r
    | _ => none

/-- The number of provider calls in a trace. -/
def countProviderCalls (trace : List Effect) : Nat :=
  (requestsMade trace).length

/-- The data collections of the provider calls in a trace, in order. -/
def collectionsUsed (trace : List Effect) : List DataCollection :=
  (requestsMade trace).map SentinelRequest.data_collection

/-- The bounding boxes logged by the `logger.debug` on line 157, in order. -/
def bboxesLogged (trace : List Effect) : List (List ℚ) :=
  trace.filterMap fun e =>
    match e with
    | Effect.logDebugBBox c => some c
    | _ => none

/-- The captions of the images displayed by `st.image`, in order. -/
def captionsShown (trace : List Effect) : List String :=
  trace.filterMap fun e =>
    match e with
    | Effect.stImage _ c => some c
    | _ => none

/-- The names of the widgets rendered in a trace, in order. -/
def widgetsShown (trace : List Effect) : List String :=
  trace.filterMap fun e =>
    match e with
    | Effect.widget n => some n
    | _ => none

/-- C1: for every latitude and longitude, the bounding box is
`[lon-0.05, lat-0.05, lon+0.05, lat+0.05]`; min < max on both axes; the box
is centered exactly at (lat, lon) with half-width and half-height equal to
the offset constant; and the concrete example lat=46.1512, lon=14.9955
yields [14.9455, 46.1012, 15.0455, 46.2012]. -/
theorem bounding_box_spec (lat lon : ℚ) :
    bbox_coords lat lon =
      [lon - 5/100, lat - 5/100, lon + 5/100, lat + 5/100] ∧
    lon - bbox_offset < lon + bbox_offset ∧
    lat - bbox_offset < lat + bbox_offset ∧
    ((lon - bbox_offset) + (lon + bbox_offset)) / 2 = lon ∧
    ((lat - bbox_offset) + (lat + bbox_offset)) / 2 = lat ∧
    (lon + bbox_offset) - lon = bbox_offset ∧
    lon - (lon - bbox_offset) = bbox_offset ∧
    (lat + bbox_offset) - lat = bbox_offset ∧
    lat - (lat - bbox_offset) = bbox_offset ∧
    bbox_coords (461512/10000) (149955/10000) =
      [149455/10000, 461012/10000, 150455/10000, 462012/10000] := by
  refine ⟨rfl, ?_, ?_, by ring, by ring, by ring, by ring, by ring, by ring, ?_⟩
  · unfold bbox_offset; linarith
  · unfold bbox_offset; linarith
  · unfold bbox_coords bbox_offset
    norm_num

/-- C3: credential validation raises `ValueError` exactly when at least one
of the three fields is falsy (empty or absent), and succeeds exactly when all
three are truthy. -/
theorem credential_validation_iff (config : SHConfig) :
    ((validate_sentinelhub_credentials config).1 =
        Except.error "Missing Sentinel Hub API credentials." ↔
      (truthy config.instance_id = false ∨ truthy config.sh_client_id = false ∨
        truthy config.sh_client_secret = false)) ∧
    ((validate_sentinelhub_credentials config).1 = Except.ok () ↔
      (truthy config.instance_id = true ∧ truthy config.sh_client_id = true ∧
        truthy config.sh_client_secret = true)) := by
  unfold validate_sentinelhub_credentials
  cases hi : truthy config.instance_id <;>
    cases hc : truthy config.sh_client_id <;>
    cases hs : truthy config.sh_client_secret <;> simp

/-- The `satellite_mapping` dictionary (lines 132-136) as an association
list, in source order. -/
def satellite_mapping : List (String × DataCollection) :=
  [("Sentinel-2", DataCollection.SENTINEL2_L1C),
   ("Sentinel-3", DataCollection.SENTINEL3_L1),
   ("Landsat-8", DataCollection.LANDSAT8_L1)]

/-- Python `dict.get(key, default)` on an association list. -/
def dictGet (m : List (String × DataCollection)) (k : String)
    (d : DataCollection) : DataCollection :=
  match m with
  | [] => d
  | (k2, v) :: rest => if k = k2 then v else dictGet rest k d

/-- `selected_data_collection` (line 137):
`satellite_mapping.get(satellite_option, DataCollection.SENTINEL2_L1C)`. -/
def selected_data_collection (satellite_option : String) : DataCollection :=
  dictGet satellite_mapping satellite_option DataCollection.SENTINEL2_L1C

/-- The form state read from the sidebar widgets on one run of `main`:
satellite choice, latitude, longitude, zoom, selected date, and whether the
"Get Satellite Image" button was pressed on this rerun. -/
structure UIInputs where
  satellite_option : String
  lat : ℚ
  lon : ℚ
  zoom : Nat
  date : PyDate
  buttonPressed : Bool

/-- The ambient environment of one run of `main`: the process-wide
credential config (lines 25-28), `datetime.today().date()` (line 161), and
the two external library functions `bbox_to_dimensions` and
`request.get_data()`. -/
structure Env where
  config : SHConfig
  today : PyDate
  btd : BBoxT → Nat → Nat × Nat
  provider : SentinelRequest → ProviderOutcome

/-- The widgets and display effects rendered by `main` before the fetch
button is handled (lines 119-162): title, sidebar widgets, the folium map
(built by `initialize_folium_map` from lat, lon and zoom), and the
`logger.debug` of the bounding box coordinates. -/
def header_effects (inp : UIInputs) : List Effect :=
  [Effect.widget "title",
   Effect.widget "sidebar_header_configuration",
   Effect.widget "selectbox_satellite",
   Effect.widget "subheader_aoi",
   Effect.widget "number_input_latitude",
   Effect.widget "number_input_longitude",
   Effect.widget "slider_zoom",
   Effect.mapDisplay inp.lat inp.lon inp.zoom,
   Effect.logDebugBBox (bbox_coords inp.lat inp.lon),
   Effect.widget "subheader_date_selection",
   Effect.widget "date_input",
   Effect.widget "button_get_image"]

/-- The fetch-button block of `main` (lines 165-177): when the button was
pressed, a future date is rejected with an error and no fetch; otherwise
`get_sentinel_image` runs under a spinner and its result is rendered as a
success message plus captioned image, or as an error message. -/
def fetch_section (env : Env) (inp : UIInputs) : List Effect :=
  if inp.buttonPressed then
    if PyDate.ltb env.today inp.date then
      [Effect.stError "Selected date cannot be in the future."]
    else
      let r := get_sentinel_image env.btd env.provider
        (bbox_coords inp.lat inp.lon) (PyDate.isoformat inp.date)
        (selected_data_collection inp.satellite_option)
      Effect.spinner "Fetching satellite image..." ::
        r.2 ++
          (match r.1 with
           | some img =>
               [Effect.stSuccess "Satellite image fetched successfully!",
                Effect.stImage img
                  ("Satellite Image on " ++ PyDate.isoformat inp.date)]
           | none => [Effect.stError "Failed to retrieve satellite image."])
  else []

/-- `main` (lines 107-177): validate the credentials first — on failure show
the exception text with `st.error` and halt via `st.stop` — then render the
page and sidebar, the map, and handle the fetch button. -/
def App.main (env : Env) (inp : UIInputs) : List Effect :=
  let v := validate_sentinelhub_credentials env.config
  v.2 ++
    match v.1 with
    | Except.error msg => [Effect.stError msg, Effect.stStop]
    | Except.ok _ => header_effects inp ++ fetch_section env inp

/-- Closed form of `App.main` when the credentials validate. -/
theorem main_of_credsOk (env : Env) (inp : UIInputs)
    (h : credsOk env.config = true) :
    App.main env inp = header_effects inp ++ fetch_section env inp := by
  unfold App.main
  rw [validate_ok_of_credsOk env.config h]
  rfl

/-- Closed form of `App.main` when the credentials are incomplete. -/
theorem main_of_not_credsOk (env : Env) (inp : UIInputs)
    (h : credsOk env.config = false) :
    App.main env inp =
      [Effect.logError
         "Sentinel Hub API credentials are not properly set in the .env file.",
       Effect.stError "Missing Sentinel Hub API credentials.",
       Effect.stStop] := by
  unfold App.main
  rw [validate_error_of_not_credsOk env.config h]
  rfl

/-- The header renders no provider call, no image and no bounding-box log
other than the one for `bbox_coords lat lon`. -/
theorem header_effects_filters (inp : UIInputs) :
    requestsMade (header_effects inp) = [] ∧
    captionsShown (header_effects inp) = [] ∧
    bboxesLogged (header_effects inp) = [bbox_coords inp.lat inp.lon] := by
  refine ⟨rfl, rfl, rfl⟩

/-- C5: every image fetch issues exactly one provider request, and that
request carries the single-day interval `(date, date)`, exactly one PNG
output response, the WGS84 bounding box built from the given coordinates,
the pixel size obtained from `bbox_to_dimensions` at resolution 10, and the
chosen data collection. -/
theorem fetch_request_shape (btd : BBoxT → Nat → Nat × Nat)
    (provider : SentinelRequest → ProviderOutcome) (bc : List ℚ)
    (date : String) (dc : DataCollection) :
    requestsMade (get_sentinel_image btd provider bc date dc).2 =
      [{ data_collection := dc,
         input_data := [(date, date)],
         responses := [("default", MimeType.PNG)],
         bbox := { coords := bc, crs := CRS.WGS84 },
         size := btd { coords := bc, crs := CRS.WGS84 } 10 }] := by
  cases h : provider (mkRequest btd bc date dc) with
  | raises e => rw [gsi_raises btd provider bc date dc e h]; rfl
  | ok data =>
      cases data with
      | nil => rw [gsi_empty btd provider bc date dc h]; rfl
      | cons img rest => rw [gsi_ok btd provider bc date dc img rest h]; rfl

/-- C4: whenever the provider raises, `get_sentinel_image` logs the
exception, surfaces a user-facing error message carrying the exception text,
returns the failure value `None`, and made exactly one provider call (no
retry); the function returns rather than propagating the exception. -/
theorem fetch_error_handling (btd : BBoxT → Nat → Nat × Nat)
    (provider : SentinelRequest → ProviderOutcome) (bc : List ℚ)
    (date : String) (dc : DataCollection) (e : String)
    (h : provider (mkRequest btd bc date dc) = ProviderOutcome.raises e) :
    (get_sentinel_image btd provider bc date dc).1 = none ∧
    Effect.logException "An error occurred while fetching the satellite image."
      ∈ (get_sentinel_image btd provider bc date dc).2 ∧
    Effect.stError ("Error fetching image: " ++ e)
      ∈ (get_sentinel_image btd provider bc date dc).2 ∧
    countProviderCalls (get_sentinel_image btd provider bc date dc).2 = 1 := by
  rw [gsi_raises btd provider bc date dc e h]
  refine ⟨rfl, by simp, by simp, rfl⟩

/-- C4 witness at a concrete raising provider. -/
theorem fetch_error_handling_witness :
    ((get_sentinel_image (fun _ _ => (1109, 1109))
        (fun _ => ProviderOutcome.raises "boom")
        (bbox_coords (461512/10000) (149955/10000)) "2024-01-15"
        DataCollection.SENTINEL2_L1C).1 = none ∧
      Effect.logException "An error occurred while fetching the satellite image."
        ∈ (get_sentinel_image (fun _ _ => (1109, 1109))
            (fun _ => ProviderOutcome.raises "boom")
            (bbox_coords (461512/10000) (149955/10000)) "2024-01-15"
            DataCollection.SENTINEL2_L1C).2 ∧
      Effect.stError ("Error fetching image: " ++ "boom")
        ∈ (get_sentinel_image (fun _ _ => (1109, 1109))
            (fun _ => ProviderOutcome.raises "boom")
            (bbox_coords (461512/10000) (149955/10000)) "2024-01-15"
            DataCollection.SENTINEL2_L1C).2 ∧
      countProviderCalls (get_sentinel_image (fun _ _ => (1109, 1109))
          (fun _ => ProviderOutcome.raises "boom")
          (bbox_coords (461512/10000) (149955/10000)) "2024-01-15"
          DataCollection.SENTINEL2_L1C).2 = 1) :=
  fetch_error_handling (fun _ _ => (1109, 1109))
    (fun _ => ProviderOutcome.raises "boom")
    (bbox_coords (461512/10000) (149955/10000)) "2024-01-15"
    DataCollection.SENTINEL2_L1C "boom" rfl

/-- C9: `get_sentinel_image` never propagates an exception: its result is
always the failure value `none` or `some` of the first returned payload, and
in particular an empty provider response list (whose `response[0]` indexing
raises IndexError inside the `try` block) yields `none` together with the
logged exception and the user-facing error. -/
theorem fetch_never_throws (btd : BBoxT → Nat → Nat × Nat)
    (provider : SentinelRequest → ProviderOutcome) (bc : List ℚ)
    (date : String) (dc : DataCollection) :
    ((get_sentinel_image btd provider bc date dc).1 = none ∨
      ∃ img rest,
        provider (mkRequest btd bc date dc) = ProviderOutcome.ok (img :: rest) ∧
        (get_sentinel_image btd provider bc date dc).1 = some img) ∧
    (provider (mkRequest btd bc date dc) = ProviderOutcome.ok [] →
      (get_sentinel_image btd provider bc date dc).1 = none ∧
      Effect.stError ("Error fetching image: " ++ "list index out of range")
        ∈ (get_sentinel_image btd provider bc date dc).2) := by
  constructor
  · cases h : provider (mkRequest btd bc date dc) with
    | raises e => left; rw [gsi_raises btd provider bc date dc e h]
    | ok data =>
        cases data with
        | nil => left; rw [gsi_empty btd provider bc date dc h]
        | cons img rest =>
            right
            exact ⟨img, rest, rfl, by rw [gsi_ok btd provider bc date dc img rest h]⟩
  · intro h
    rw [gsi_empty btd provider bc date dc h]
    exact ⟨rfl, by simp⟩

/-- C9 witness at a concrete provider returning an empty response list. -/
theorem fetch_never_throws_witness :
    (get_sentinel_image (fun _ _ => (1109, 1109))
        (fun _ => ProviderOutcome.ok [])
        (bbox_coords (461512/10000) (149955/10000)) "2024-01-15"
        DataCollection.SENTINEL2_L1C).1 = none ∧
      Effect.stError ("Error fetching image: " ++ "list index out of range")
        ∈ (get_sentinel_image (fun _ _ => (1109, 1109))
            (fun _ => ProviderOutcome.ok [])
            (bbox_coords (461512/10000) (149955/10000)) "2024-01-15"
            DataCollection.SENTINEL2_L1C).2 :=
  (fetch_never_throws (fun _ _ => (1109, 1109))
    (fun _ => ProviderOutcome.ok [])
    (bbox_coords (461512/10000) (149955/10000)) "2024-01-15"
    DataCollection.SENTINEL2_L1C).2 rfl

/-- Closed form of `App.main` when the button was pressed with a future
date: the header renders, then only the rejection error. -/
theorem main_future (env : Env) (inp : UIInputs)
    (hc : credsOk env.config = true) (hb : inp.buttonPressed = true)
    (hd : PyDate.ltb env.today inp.date = true) :
    App.main env inp =
      header_effects inp ++
        [Effect.stError "Selected date cannot be in the future."] := by
  rw [main_of_credsOk env inp hc]
  simp [fetch_section, hb, hd]

/-- Closed form of `App.main` for a fetch whose provider call raises. -/
theorem main_fetch_raises (env : Env) (inp : UIInputs) (e : String)
    (hc : credsOk env.config = true) (hb : inp.buttonPressed = true)
    (hd : PyDate.ltb env.today inp.date = false)
    (hp : env.provider
        (mkRequest env.btd (bbox_coords inp.lat inp.lon)
          (PyDate.isoformat inp.date)
          (selected_data_collection inp.satellite_option)) =
      ProviderOutcome.raises e) :
    App.main env inp =
      header_effects inp ++
        [Effect.spinner "Fetching satellite image...",
         Effect.logInfoFetching (PyDate.isoformat inp.date)
           (bbox_coords inp.lat inp.lon),
         Effect.providerCall
           (mkRequest env.btd (bbox_coords inp.lat inp.lon)
             (PyDate.isoformat inp.date)
             (selected_data_collection inp.satellite_option)),
         Effect.logException
           "An error occurred while fetching the satellite image.",
         Effect.stError ("Error fetching image: " ++ e),
         Effect.stError "Failed to retrieve satellite image."] := by
  rw [main_of_credsOk env inp hc]
  simp [fetch_section, hb, hd,
    gsi_raises env.btd env.provider (bbox_coords inp.lat inp.lon)
      (PyDate.isoformat inp.date)
      (selected_data_collection inp.satellite_option) e hp]

/-- Closed form of `App.main` for a fetch whose provider call returns an
empty response list. -/
theorem main_fetch_empty (env : Env) (inp : UIInputs)
    (hc : credsOk env.config = true) (hb : inp.buttonPressed = true)
    (hd : PyDate.ltb env.today inp.date = false)
    (hp : env.provider
        (mkRequest env.btd (bbox_coords inp.lat inp.lon)
          (PyDate.isoformat inp.date)
          (selected_data_collection inp.satellite_option)) =
      ProviderOutcome.ok []) :
    App.main env inp =
      header_effects inp ++
        [Effect.spinner "Fetching satellite image...",
         Effect.logInfoFetching (PyDate.isoformat inp.date)
           (bbox_coords inp.lat inp.lon),
         Effect.providerCall
           (mkRequest env.btd (bbox_coords inp.lat inp.lon)
             (PyDate.isoformat inp.date)
             (selected_data_collection inp.satellite_option)),
         Effect.logException
           "An error occurred while fetching the satellite image.",
         Effect.stError ("Error fetching image: " ++ "list index out of range"),
         Effect.stError "Failed to retrieve satellite image."] := by
  rw [main_of_credsOk env inp hc]
  simp [fetch_section, hb, hd,
    gsi_empty env.btd env.provider (bbox_coords inp.lat inp.lon)
      (PyDate.isoformat inp.date)
      (selected_data_collection inp.satellite_option) hp]

/-- Closed form of `App.main` for a fetch whose provider call returns at
least one image payload. -/
theorem main_fetch_ok (env : Env) (inp : UIInputs) (img : List Nat)
    (rest : List (List Nat))
    (hc : credsOk env.config = true) (hb : inp.buttonPressed = true)
    (hd : PyDate.ltb env.today inp.date = false)
    (hp : env.provider
        (mkRequest env.btd (bbox_coords inp.lat inp.lon)
          (PyDate.isoformat inp.date)
          (selected_data_collection inp.satellite_option)) =
      ProviderOutcome.ok (img :: rest)) :
    App.main env inp =
      header_effects inp ++
        [Effect.spinner "Fetching satellite image...",
         Effect.logInfoFetching (PyDate.isoformat inp.date)
           (bbox_coords inp.lat inp.lon),
         Effect.providerCall
           (mkRequest env.btd (bbox_coords inp.lat inp.lon)
             (PyDate.isoformat inp.date)
             (selected_data_collection inp.satellite_option)),
         Effect.logInfo "Satellite image fetched successfully.",
         Effect.stSuccess "Satellite image fetched successfully!",
         Effect.stImage img
           ("Satellite Image on " ++ PyDate.isoformat inp.date)] := by
  rw [main_of_credsOk env inp hc]
  simp [fetch_section, hb, hd,
    gsi_ok env.btd env.provider (bbox_coords inp.lat inp.lon)
      (PyDate.isoformat inp.date)
      (selected_data_collection inp.satellite_option) img rest hp]

/-- A complete credential set for concrete runs. -/
def cfgOk : SHConfig :=
  { instance_id := some "inst", sh_client_id := some "cid",
    sh_client_secret := some "secret" }

/-- An incomplete credential set: the instance identifier is absent. -/
def cfgBad : SHConfig :=
  { instance_id := none, sh_client_id := some "cid",
    sh_client_secret := some "secret" }

/-- A concrete stand-in for the external `bbox_to_dimensions`. -/
def btdW : BBoxT → Nat → Nat × Nat := fun _ _ => (1109, 1109)

/-- A provider that returns one image payload. -/
def provOkW : SentinelRequest → ProviderOutcome :=
  fun _ => ProviderOutcome.ok [[7, 7, 7]]

/-- A concrete date, 2024-01-15. -/
def dateW : PyDate := { year := 2024, month := 1, day := 15 }

/-- A concrete environment: complete credentials, today = 2024-01-15,
provider returning one payload. -/
def envOkW : Env :=
  { config := cfgOk, today := dateW, btd := btdW, provider := provOkW }

/-- The same environment with the incomplete credential set. -/
def envBadW : Env :=
  { config := cfgBad, today := dateW, btd := btdW, provider := provOkW }

/-- Concrete inputs: Sentinel-2 selected, the app's default coordinates,
today's date, button pressed. -/
def inpS2 : UIInputs :=
  { satellite_option := "Sentinel-2", lat := 461512/10000,
    lon := 149955/10000, zoom := 10, date := dateW, buttonPressed := true }

/-- The same inputs with "Sentinel-3" selected. -/
def inpS3 : UIInputs :=
  { satellite_option := "Sentinel-3", lat := 461512/10000,
    lon := 149955/10000, zoom := 10, date := dateW, buttonPressed := true }

/-- The same inputs with a future date (2030-01-01) selected. -/
def inpFuture : UIInputs :=
  { satellite_option := "Sentinel-2", lat := 461512/10000,
    lon := 149955/10000, zoom := 10,
    date := { year := 2030, month := 1, day := 1 }, buttonPressed := true }

/-- C2: with the app running (credentials valid) and the fetch button
pressed, a selected date strictly after today yields the rejection error and
no provider call at all, while a date on or before today leads to exactly
one attempted fetch. -/
theorem future_date_blocks_fetch (env : Env) (inp : UIInputs)
    (hb : inp.buttonPressed = true) (hc : credsOk env.config = true) :
    (PyDate.ltb env.today inp.date = true →
      Effect.stError "Selected date cannot be in the future." ∈ App.main env inp ∧
      countProviderCalls (App.main env inp) = 0) ∧
    (PyDate.ltb env.today inp.date = false →
      countProviderCalls (App.main env inp) = 1) := by
  constructor
  · intro hd
    rw [main_future env inp hc hb hd]
    exact ⟨by simp [header_effects], rfl⟩
  · intro hd
    cases hp : env.provider
        (mkRequest env.btd (bbox_coords inp.lat inp.lon)
          (PyDate.isoformat inp.date)
          (selected_data_collection inp.satellite_option)) with
    | raises e => rw [main_fetch_raises env inp e hc hb hd hp]; rfl
    | ok data =>
        cases data with
        | nil => rw [main_fetch_empty env inp hc hb hd hp]; rfl
        | cons img rest => rw [main_fetch_ok env inp img rest hc hb hd hp]; rfl

/-- C2 witness: a future date (2030-01-01 against today 2024-01-15) is
rejected with no provider call; today's date leads to exactly one call. -/
theorem future_date_blocks_fetch_witness :
    (Effect.stError "Selected date cannot be in the future."
        ∈ App.main envOkW inpFuture ∧
      countProviderCalls (App.main envOkW inpFuture) = 0) ∧
    countProviderCalls (App.main envOkW inpS2) = 1 := by
  have h1 := future_date_blocks_fetch envOkW inpFuture rfl (by decide)
  have h2 := future_date_blocks_fetch envOkW inpS2 rfl (by decide)
  exact ⟨h1.1 (by decide), h2.2 (by decide)⟩

/-- C6: when the credentials are incomplete, `App.main` shows only the
credential error and stops: the whole trace is the logged error, the
streamlit error and the halt — no sidebar widget is rendered and no provider
call is ever made in that session. -/
theorem invalid_credentials_halt (env : Env) (inp : UIInputs)
    (h : credsOk env.config = false) :
    App.main env inp =
      [Effect.logError
         "Sentinel Hub API credentials are not properly set in the .env file.",
       Effect.stError "Missing Sentinel Hub API credentials.",
       Effect.stStop] ∧
    requestsMade (App.main env inp) = [] ∧
    widgetsShown (App.main env inp) = [] := by
  have hm := main_of_not_credsOk env inp h
  refine ⟨hm, ?_, ?_⟩ <;> rw [hm] <;> rfl

/-- C6 witness: with the instance identifier absent, the session halts with
the credential error and renders nothing else. -/
theorem invalid_credentials_halt_witness :
    App.main envBadW inpS2 =
      [Effect.logError
         "Sentinel Hub API credentials are not properly set in the .env file.",
       Effect.stError "Missing Sentinel Hub API credentials.",
       Effect.stStop] ∧
    requestsMade (App.main envBadW inpS2) = [] ∧
    widgetsShown (App.main envBadW inpS2) = [] :=
  invalid_credentials_halt envBadW inpS2 (by decide)

/-- C10: two runs of `App.main` that differ only in the zoom value log the
same bounding-box coordinates and issue identical provider requests: the
zoom slider influences only the displayed map view. -/
theorem zoom_noninterference (env : Env) (inp : UIInputs) (z1 z2 : Nat) :
    bboxesLogged (App.main env { inp with zoom := z1 }) =
      bboxesLogged (App.main env { inp with zoom := z2 }) ∧
    requestsMade (App.main env { inp with zoom := z1 }) =
      requestsMade (App.main env { inp with zoom := z2 }) := by
  cases inp with
  | mk sat lat lon zoom date btn =>
    cases hcv : credsOk env.config with
    | false =>
        rw [main_of_not_credsOk _ _ hcv, main_of_not_credsOk _ _ hcv]
        exact ⟨rfl, rfl⟩
    | true =>
        rw [main_of_credsOk _ _ hcv, main_of_credsOk _ _ hcv]
        have hf : fetch_section env ⟨sat, lat, lon, z1, date, btn⟩ =
            fetch_section env ⟨sat, lat, lon, z2, date, btn⟩ := rfl
        constructor
        · show bboxesLogged (header_effects ⟨sat, lat, lon, z1, date, btn⟩ ++
              fetch_section env ⟨sat, lat, lon, z1, date, btn⟩) = _
          rw [hf]
          unfold bboxesLogged
          rw [List.filterMap_append, List.filterMap_append]
          rfl
        · show requestsMade (header_effects ⟨sat, lat, lon, z1, date, btn⟩ ++
              fetch_section env ⟨sat, lat, lon, z1, date, btn⟩) = _
          rw [hf]
          unfold requestsMade
          rw [List.filterMap_append, List.filterMap_append]
          rfl

/-- C7 counterexample: with "Sentinel-3" selected, the one provider call of
the run carries the SENTINEL3_L1 data collection — not SENTINEL2_L1C, so the
fetch does not silently default to Sentinel-2. -/
theorem sentinel3_collection_counterexample :
    collectionsUsed (App.main envOkW inpS3) = [DataCollection.SENTINEL3_L1] ∧
    DataCollection.SENTINEL3_L1 ≠ DataCollection.SENTINEL2_L1C :=
  ⟨rfl, by decide⟩

/-- C7 (amended): the satellite selector is passed through faithfully — the
mapping sends "Sentinel-2" to SENTINEL2_L1C, "Sentinel-3" to SENTINEL3_L1
and "Landsat-8" to LANDSAT8_L1, and the fetch uses exactly the mapped
collection of the selected option; the SENTINEL2_L1C fallback of
`dict.get` applies only to options outside the mapping, which the
three-option selectbox never produces. -/
theorem satellite_mapping_passthrough (env : Env) (inp : UIInputs)
    (hb : inp.buttonPressed = true) (hc : credsOk env.config = true)
    (hd : PyDate.ltb env.today inp.date = false) :
    collectionsUsed (App.main env inp) =
      [selected_data_collection inp.satellite_option] ∧
    selected_data_collection "Sentinel-2" = DataCollection.SENTINEL2_L1C ∧
    selected_data_collection "Sentinel-3" = DataCollection.SENTINEL3_L1 ∧
    selected_data_collection "Landsat-8" = DataCollection.LANDSAT8_L1 ∧
    (∀ s : String, s ≠ "Sentinel-2" → s ≠ "Sentinel-3" → s ≠ "Landsat-8" →
      selected_data_collection s = DataCollection.SENTINEL2_L1C) := by
  refine ⟨?_, rfl, rfl, rfl, ?_⟩
  · cases hp : env.provider
        (mkRequest env.btd (bbox_coords inp.lat inp.lon)
          (PyDate.isoformat inp.date)
          (selected_data_collection inp.satellite_option)) with
    | raises e => rw [main_fetch_raises env inp e hc hb hd hp]; rfl
    | ok data =>
        cases data with
        | nil => rw [main_fetch_empty env inp hc hb hd hp]; rfl
        | cons img rest => rw [main_fetch_ok env inp img rest hc hb hd hp]; rfl
  · intro s h2 h3 h8
    simp [selected_data_collection, dictGet, satellite_mapping, h2, h3, h8]

/-- C7 witness: the "Sentinel-3" run uses SENTINEL3_L1, and an option
outside the mapping falls back to SENTINEL2_L1C. -/
theorem satellite_mapping_passthrough_witness :
    collectionsUsed (App.main envOkW inpS3) =
      [selected_data_collection inpS3.satellite_option] ∧
    selected_data_collection "Sentinel-2" = DataCollection.SENTINEL2_L1C ∧
    selected_data_collection "Sentinel-3" = DataCollection.SENTINEL3_L1 ∧
    selected_data_collection "Landsat-8" = DataCollection.LANDSAT8_L1 ∧
    selected_data_collection "Sentinel-5P" = DataCollection.SENTINEL2_L1C := by
  have h := satellite_mapping_passthrough envOkW inpS3 rfl (by decide) (by decide)
  exact ⟨h.1, h.2.1, h.2.2.1, h.2.2.2.1,
    h.2.2.2.2 "Sentinel-5P" (by decide) (by decide) (by decide)⟩

/-- C8 counterexample: on a successful fetch of 2024-01-15 the one displayed
caption is "Satellite Image on 2024-01-15", which is not equal to the
selected date string "2024-01-15": the caption contains the date but does
not equal it. -/
theorem caption_not_equal_date :
    captionsShown (App.main envOkW inpS2) = ["Satellite Image on 2024-01-15"] ∧
    PyDate.isoformat inpS2.date = "2024-01-15" ∧
    ("Satellite Image on 2024-01-15" : String) ≠ "2024-01-15" :=
  ⟨rfl, rfl, by decide⟩

/-- C8 (amended): whenever the provider call returns image bytes, the image
is displayed exactly once and its caption is the string
"Satellite Image on " followed by the literal selected date string — the
caption contains the selected date string rather than equaling it. -/
theorem caption_contains_date (env : Env) (inp : UIInputs) (img : List Nat)
    (rest : List (List Nat))
    (hb : inp.buttonPressed = true) (hc : credsOk env.config = true)
    (hd : PyDate.ltb env.today inp.date = false)
    (hp : env.provider
        (mkRequest env.btd (bbox_coords inp.lat inp.lon)
          (PyDate.isoformat inp.date)
          (selected_data_collection inp.satellite_option)) =
      ProviderOutcome.ok (img :: rest)) :
    captionsShown (App.main env inp) =
      ["Satellite Image on " ++ PyDate.isoformat inp.date] ∧
    Effect.stImage img ("Satellite Image on " ++ PyDate.isoformat inp.date)
      ∈ App.main env inp := by
  rw [main_fetch_ok env inp img rest hc hb hd hp]
  exact ⟨rfl, by simp [header_effects]⟩

/-- C8 witness: a concrete successful fetch displays the image with caption
"Satellite Image on " followed by the date string. -/
theorem caption_contains_date_witness :
    captionsShown (App.main envOkW inpS2) =
      ["Satellite Image on " ++ PyDate.isoformat inpS2.date] ∧
    Effect.stImage [7, 7, 7]
        ("Satellite Image on " ++ PyDate.isoformat inpS2.date)
      ∈ App.main envOkW inpS2 :=
  caption_contains_date envOkW inpS2 [7, 7, 7] [] rfl (by decide) (by decide) rfl
